import Mathlib

/-!
Shallow embedding of the PsySom resilient session bridge:
the credential circuit breaker of src/lib/drive/driveService.ts
(DriveService.callDriveApi, DriveService.fetchWithAuth,
DriveService.getAccessToken, convertFloat32ToInt16) and the realtime
audio session manager of src/lib/ai/geminiLive.ts
(GeminiLiveService.cleanup, connect, disconnect, stopAllAudio,
createBlob, the onmessage and onaudioprocess handlers, and the
module-level connect with its globalConnecting latch).

Machine-level conventions: JavaScript numbers used for audio times and
samples are modelled as exact rationals; Int16Array element assignment
is modelled as truncation toward zero followed by reduction modulo
2 to the 16, reinterpreted as a signed 16-bit integer; thrown
exceptions are modelled by explicit error constructors.
-/

namespace PsySom

/-- Truncation toward zero of a rational: the ToInteger step that a
JavaScript typed-array store applies to the incoming number. -/
def ratTrunc (x : ℚ) : ℤ := x.num.tdiv x.den

/-- JavaScript Int16Array element store (ToInt16): truncate toward
zero, reduce modulo 2 to the 16 into 0..65535, and reinterpret that
bit pattern as a signed 16-bit integer. -/
def toInt16 (x : ℚ) : ℤ :=
  if ratTrunc x % 65536 < 32768 then ratTrunc x % 65536
  else ratTrunc x % 65536 - 65536

namespace Drive

/-- Errors thrown by the circuit-breaker wrappers in driveService.ts:
httpErr carries the classified status of the original thrown error
(err.status or err.result.error.code; none when no status is present),
authDead models throw new Error with message AUTH_DEAD, and
rateLimited models throw new Error with message RATE_LIMIT_EXCEEDED. -/
inductive ApiError where
  | httpErr (status : Option Nat)
  | authDead
  | rateLimited
deriving DecidableEq, Repr

/-- Result of one invocation of the wrapped operation passed to
callDriveApi: either a value, or a thrown error whose classified
status is the given Option Nat. -/
inductive OpResult (T : Type) where
  | ok (value : T)
  | fail (status : Option Nat)
deriving DecidableEq, Repr

/-- Result of a whole wrapped call: the returned value or the thrown
error, as observed by the caller of callDriveApi / fetchWithAuth. -/
inductive DriveOutcome (T : Type) where
  | ok (value : T)
  | err (e : ApiError)
deriving DecidableEq, Repr

/-- MAX_RETRIES constant of DriveService.callDriveApi and
DriveService.fetchWithAuth (driveService.ts lines 165 and 206). -/
def MAX_RETRIES : Nat := 1

/-- DriveService.callDriveApi (driveService.ts lines 164-200).
Arguments: op gives the outcome of the n-th invocation of the wrapped
operation (indexed by a running invocation counter), refreshOk says
whether the forced token refresh getAccessToken(true) succeeds, then
fuel (the source recursion is bounded because retryCount strictly
increases up to MAX_RETRIES, so fuel 2 from retryCount 0 is exact),
retryCount, and the running invocation counter. Returns the observed
outcome, the invocation counter after the call (so total operation
invocations when started at 0), and the number of forced refresh
calls getAccessToken(true) performed. The recursive retry is awaited
inside the try block, so any failure of the retry - auth-class or not -
is caught by catch (authErr) and rethrown as AUTH_DEAD. -/
def callDriveApi {T : Type} (op : Nat → OpResult T) (refreshOk : Bool) :
    Nat → Nat → Nat → DriveOutcome T × Nat × Nat
  | 0, _, calls => (DriveOutcome.err ApiError.authDead, calls, 0)
  | fuel + 1, retryCount, calls =>
    match op calls with
    | OpResult.ok t => (DriveOutcome.ok t, calls + 1, 0)
    | OpResult.fail status =>
      if status = some 401 ∨ status = some 403 then
        if retryCount < MAX_RETRIES then
          if refreshOk then
            match callDriveApi op refreshOk fuel (retryCount + 1) (calls + 1) with
            | (DriveOutcome.ok t, n, k) => (DriveOutcome.ok t, n, k + 1)
            | (DriveOutcome.err _, n, k) => (DriveOutcome.err ApiError.authDead, n, k + 1)
          else (DriveOutcome.err ApiError.authDead, calls + 1, 1)
        else (DriveOutcome.err ApiError.authDead, calls + 1, 0)
      else if status = some 429 then (DriveOutcome.err ApiError.rateLimited, calls + 1, 0)
      else (DriveOutcome.err (ApiError.httpErr status), calls + 1, 0)

/-- DriveService.fetchWithAuth (driveService.ts lines 205-244).
respStatus gives the HTTP status of the n-th fetch response. The
Authorization-header construction and the non-forced token fetch on a
missing token do not influence the retry logic and are not modelled.
Status 401 triggers the one-shot refresh-and-retry; the recursive call
is returned without await from inside the try block, so only a failure
of getAccessToken(true) itself is converted to AUTH_DEAD while a
failure of the recursive call propagates unchanged. Status 403 and 429
are both thrown as RATE_LIMIT_EXCEEDED (the Handle Rate Limit or
Forbidden branch); any other status is returned as the response.
Result components are as in callDriveApi. -/
def fetchWithAuth (respStatus : Nat → Nat) (refreshOk : Bool) :
    Nat → Nat → Nat → DriveOutcome Nat × Nat × Nat
  | 0, _, calls => (DriveOutcome.err ApiError.authDead, calls, 0)
  | fuel + 1, retryCount, calls =>
    let status := respStatus calls
    if status = 401 then
      if retryCount < MAX_RETRIES then
        if refreshOk then
          match fetchWithAuth respStatus refreshOk fuel (retryCount + 1) (calls + 1) with
          | (r, n, k) => (r, n, k + 1)
        else (DriveOutcome.err ApiError.authDead, calls + 1, 1)
      else (DriveOutcome.err ApiError.authDead, calls + 1, 0)
    else if status = 403 ∨ status = 429 then
      (DriveOutcome.err ApiError.rateLimited, calls + 1, 0)
    else (DriveOutcome.ok status, calls + 1, 0)

/-- Sample conversion of convertFloat32ToInt16 (driveService.ts lines
589-597), also used by downsampleTo16k: clamp into -1..1 and scale by
0x7FFF = 32767 before the Int16 store, so every input at or beyond
full scale clips to plus or minus 32767 and no wrap can occur. -/
def convertFloat32ToInt16Sample (x : ℚ) : ℤ :=
  toInt16 (max (-1) (min 1 x) * 32767)

/-- Outcome observed by one caller of DriveService.getAccessToken:
resolved with the value of window.gapi.client.getToken() at resolution
time (which may be absent), or rejected with the token-client error. -/
inductive TokenOutcome where
  | resolved (tok : Option Nat)
  | rejected
deriving DecidableEq, Repr

/-- State shared by all getAccessToken callers (driveService.ts lines
111-158): the isRefreshingToken single-flight flag, the token stored in
window.gapi.client, plus the observables of a run - how many
interactive prompts (tokenClient.requestAccessToken) were shown, which
callers are parked in the 100 ms polling wait, which caller owns the
open prompt (tokenClient.callback), and each settled caller's outcome. -/
structure AuthSys where
  isRefreshingToken : Bool
  stored : Option Nat
  prompts : Nat
  waiting : List Nat
  pendingPrompt : Option Nat
  outcomes : List (Nat × TokenOutcome)
deriving DecidableEq, Repr

/-- Events of the single-threaded event loop relevant to getAccessToken:
a caller invoking getAccessToken(forcePrompt), the token client firing
its callback (ok = no resp.error, tok the granted token), and the
100 ms interval of a parked caller firing. -/
inductive AuthEvent where
  | call (id : Nat) (forcePrompt : Bool)
  | tokenCallback (ok : Bool) (tok : Nat)
  | poll (id : Nat)
deriving DecidableEq, Repr

/-- One synchronous step of DriveService.getAccessToken. A call finding
isRefreshingToken set parks in the polling wait; otherwise with a stored
token and forcePrompt false it resolves immediately; otherwise it sets
isRefreshingToken, installs the callback and shows the prompt. The
callback clears the flag, then either rejects the prompting caller or
stores the token and resolves it. A poll does nothing while the flag is
set; once clear it resolves the parked caller with the stored token -
never with a rejection. -/
def authStep (s : AuthSys) : AuthEvent → AuthSys
  | AuthEvent.call id forcePrompt =>
    if s.isRefreshingToken then { s with waiting := s.waiting ++ [id] }
    else
      match s.stored with
      | some t =>
        if forcePrompt then
          { s with isRefreshingToken := true, prompts := s.prompts + 1,
                   pendingPrompt := some id }
        else { s with outcomes := s.outcomes ++ [(id, TokenOutcome.resolved (some t))] }
      | none =>
        { s with isRefreshingToken := true, prompts := s.prompts + 1,
                 pendingPrompt := some id }
  | AuthEvent.tokenCallback ok tok =>
    match s.pendingPrompt with
    | none => s
    | some id =>
      if ok then
        { s with isRefreshingToken := false, pendingPrompt := none, stored := some tok,
                 outcomes := s.outcomes ++ [(id, TokenOutcome.resolved (some tok))] }
      else
        { s with isRefreshingToken := false, pendingPrompt := none,
                 outcomes := s.outcomes ++ [(id, TokenOutcome.rejected)] }
  | AuthEvent.poll id =>
    if s.isRefreshingToken then s
    else if id ∈ s.waiting then
      { s with waiting := s.waiting.erase id,
               outcomes := s.outcomes ++ [(id, TokenOutcome.resolved s.stored)] }
    else s

/-- Runs a sequence of event-loop events from a starting state. -/
def authRun (s : AuthSys) : List AuthEvent → AuthSys
  | [] => s
  | e :: es => authRun (authStep s e) es

/-- Recognizer for the token-client callback event. -/
def isTokenCallback : AuthEvent → Bool
  | AuthEvent.tokenCallback _ _ => true
  | _ => false

/-- Initial state: no refresh in flight, no stored token. -/
def authInit : AuthSys :=
  { isRefreshingToken := false, stored := none, prompts := 0,
    waiting := [], pendingPrompt := none, outcomes := [] }

/-- The polling wait of getAccessToken for a caller that found
isRefreshingToken set (driveService.ts lines 116-126): the caller polls
the flag every 100 ms; flagAt k is the value observed at the k-th poll
and stored k the token stored at that moment. Returns some outcome when
a poll within fuel steps sees the flag cleared (the caller resolves with
the stored token) and none when the caller is still waiting after fuel
polls. The loop has no deadline and no failure path. -/
def waiterPolls (flagAt : Nat → Bool) (stored : Nat → Option Nat) :
    Nat → Nat → Option (Option Nat)
  | 0, _ => none
  | fuel + 1, k =>
    if flagAt k then waiterPolls flagAt stored fuel (k + 1) else some (stored k)

end Drive

namespace Live

/-- Speaker role of a finalized transcript turn. -/
inductive Role where
  | user
  | model
deriving DecidableEq, Repr

/-- A finalized transcript turn. -/
structure TranscriptTurn where
  role : Role
  text : String
deriving DecidableEq, Repr

/-- Instance state of GeminiLiveService (geminiLive.ts lines 64-79).
Nullable handles (session, stream, processor, the two audio contexts,
sessionPromise) are modelled as booleans: true when the handle is
non-null. nextStartTime is the playback cursor, sources the set of
currently scheduled-but-unfinished playback sources (by id), and the
two transcription accumulators and the isActive / isConnecting flags
are as in the source. -/
structure LiveState where
  session : Bool
  stream : Bool
  processor : Bool
  inputCtx : Bool
  outputCtx : Bool
  sessionPromise : Bool
  nextStartTime : ℚ
  sources : List Nat
  currentInputTranscription : String
  currentOutputTranscription : String
  isActive : Bool
  isConnecting : Bool
deriving DecidableEq, Repr

/-- The freshly constructed service: every handle null, cursor 0,
no sources, empty accumulators, inactive. -/
def initialLiveState : LiveState :=
  { session := false, stream := false, processor := false, inputCtx := false,
    outputCtx := false, sessionPromise := false, nextStartTime := 0, sources := [],
    currentInputTranscription := "", currentOutputTranscription := "",
    isActive := false, isConnecting := false }

/-- Which handle-release operations of a teardown throw when invoked
(an audio context refusing to close, a track refusing to stop, and so
on). Every such operation in the source sits inside its own
try-catch-ignore block. -/
structure TeardownFaults where
  processorDisconnectFails : Bool
  sessionCloseFails : Bool
  trackStopFails : Bool
  sourceStopFails : Bool
  inputCtxCloseFails : Bool
  outputCtxCloseFails : Bool
deriving DecidableEq, Repr

/-- A teardown with every release operation succeeding. -/
def noFaults : TeardownFaults :=
  { processorDisconnectFails := false, sessionCloseFails := false,
    trackStopFails := false, sourceStopFails := false,
    inputCtxCloseFails := false, outputCtxCloseFails := false }

/-- A handle-release operation that throws exactly when its fault flag
is set. -/
def releaseOp (fails : Bool) : Except String Unit :=
  if fails then Except.error "release failed" else Except.ok ()

/-- The try-open-brace op close-brace catch (e) open-brace close-brace
pattern of the source: the operation's failure is swallowed and
execution continues. -/
def tryIgnore (op : Except String Unit) : Except String Unit :=
  match op with
  | Except.ok _ => Except.ok ()
  | Except.error _ => Except.ok ()

/-- GeminiLiveService.stopAllAudio (geminiLive.ts lines 292-298): stop
and disconnect every scheduled source (each inside try-catch), clear
the set, and reset the playback cursor to 0. -/
def stopAllAudio (s : LiveState) : LiveState :=
  { s with sources := [], nextStartTime := 0 }

/-- GeminiLiveService.cleanup (geminiLive.ts lines 84-127): clear the
isActive and isConnecting flags, then release in order the processor,
the session, all scheduled audio (stopAllAudio), the media-stream
tracks, the input audio context, the output audio context, and null
sessionPromise. Every release operation that can throw is wrapped in
its own try-catch-ignore, so the whole teardown is designed never to
throw. The state is represented explicitly so the Except layer records
exactly where an exception could escape. -/
def cleanup (s : LiveState) (f : TeardownFaults) : Except String LiveState := do
  let s := { s with isActive := false, isConnecting := false }
  let s ←
    if s.processor then do
      tryIgnore (releaseOp f.processorDisconnectFails)
      pure { s with processor := false }
    else pure s
  let s ←
    if s.session then do
      tryIgnore (releaseOp f.sessionCloseFails)
      pure { s with session := false }
    else pure s
  let s ←
    if s.sources.isEmpty then pure (stopAllAudio s)
    else do
      tryIgnore (releaseOp f.sourceStopFails)
      pure (stopAllAudio s)
  let s ←
    if s.stream then do
      tryIgnore (releaseOp f.trackStopFails)
      pure { s with stream := false }
    else pure s
  let s ←
    if s.inputCtx then do
      tryIgnore (releaseOp f.inputCtxCloseFails)
      pure { s with inputCtx := false }
    else pure s
  let s ←
    if s.outputCtx then do
      tryIgnore (releaseOp f.outputCtxCloseFails)
      pure { s with outputCtx := false }
    else pure s
  pure { s with sessionPromise := false }

/-- GeminiLiveService.disconnect (geminiLive.ts lines 300-302): it
awaits cleanup and resolves with undefined. The second component is
the value handed to a caller that awaits a transcript: none, because
disconnect returns Promise of void and flushes nothing. -/
def disconnect (s : LiveState) (f : TeardownFaults) :
    Except String (LiveState × Option (List TranscriptTurn)) :=
  (cleanup s f).map (fun s' => (s', none))

/-- The onmessage turnComplete branch (geminiLive.ts lines 215-219),
guarded by the isActive check at the top of onmessage: fires
onTurnComplete with both trimmed accumulators and resets them. Returns
the new state and the event payload when one was emitted. -/
def onTurnComplete (s : LiveState) : LiveState × Option (String × String) :=
  if s.isActive then
    ({ s with currentInputTranscription := "", currentOutputTranscription := "" },
      some (s.currentInputTranscription.trim, s.currentOutputTranscription.trim))
  else (s, none)

/-- The synchronous part of the onmessage audio branch before the
decode suspension (geminiLive.ts lines 221-225): when the top-of-handler
isActive check passed and base64 audio with a live output context is
present, the cursor is pulled up to the output clock. -/
def audioPhaseA (s : LiveState) (clock : ℚ) : LiveState :=
  if s.isActive && s.outputCtx then
    { s with nextStartTime := max s.nextStartTime clock }
  else s

/-- The continuation of the onmessage audio branch after the
asynchronous decodeAudioData completes (geminiLive.ts lines 227-241):
decodeOk is whether the decode succeeded (the catch silences a
failure), and isActive and the output context are re-checked before a
source is created, started at nextStartTime, the cursor advanced by the
buffer's duration and the source added to the set. Returns the new
state and the scheduled start time when a source was scheduled. -/
def audioPhaseB (s : LiveState) (dur : ℚ) (id : Nat) (decodeOk : Bool) :
    LiveState × Option ℚ :=
  if decodeOk && s.isActive && s.outputCtx then
    ({ s with nextStartTime := s.nextStartTime + dur, sources := id :: s.sources },
      some s.nextStartTime)
  else (s, none)

/-- One inbound audio frame processed to completion with no interleaved
event between its two phases: the frame is scheduled to start at
max nextStartTime clock and the cursor then advances by its duration. -/
def processAudioFrame (s : LiveState) (clock dur : ℚ) (id : Nat) :
    LiveState × Option ℚ :=
  audioPhaseB (audioPhaseA s clock) dur id true

/-- A run of inbound audio frames (clock at arrival, buffer duration,
source id), each processed to completion, collecting the scheduled
start times. -/
def scheduleRun (s : LiveState) : List (ℚ × ℚ × Nat) → LiveState × List ℚ
  | [] => (s, [])
  | (c, d, id) :: rest =>
    match processAudioFrame s c d id with
    | (s', some st) =>
      let r := scheduleRun s' rest
      (r.1, st :: r.2)
    | (s', none) => scheduleRun s' rest

/-- Reference schedule of the clock-based discipline: from a cursor,
each frame (clock, duration) starts at max cursor clock and the cursor
becomes that start plus the duration. Each output entry is the
scheduled start paired with the frame's clock and duration. -/
def annotate (cursor : ℚ) : List (ℚ × ℚ) → List (ℚ × ℚ × ℚ)
  | [] => []
  | (c, d) :: rest => (max cursor c, c, d) :: annotate (max cursor c + d) rest

/-- The onmessage interrupted branch (geminiLive.ts lines 247-250),
guarded by the isActive check at the top of onmessage: stopAllAudio
plus onModelSpeakingChange false; no teardown and no error. -/
def onInterrupted (s : LiveState) : LiveState :=
  if s.isActive then stopAllAudio s else s

/-- Sample conversion of GeminiLiveService.createBlob (geminiLive.ts
lines 280-290): int16 at i receives data at i times 32768 with no
clamping, so a full-scale or out-of-range sample wraps in the Int16
store. -/
def createBlobSample (x : ℚ) : ℤ := toInt16 (x * 32768)

/-- The value createBlob hands to sendRealtimeInput: the per-sample
converted PCM data and the 16 kHz mime tag (the base64 transport step
is a bijective encoding of the data and is not modelled). -/
structure PCMBlob where
  data : List ℤ
  mimeType : String
deriving DecidableEq, Repr

/-- GeminiLiveService.createBlob (geminiLive.ts lines 280-290). -/
def createBlob (samples : List ℚ) : PCMBlob :=
  { data := samples.map createBlobSample, mimeType := "audio/pcm;rate=16000" }

/-- The onaudioprocess capture handler (geminiLive.ts lines 187-194):
returns the blob handed to sendRealtimeInput, or none when nothing is
sent. The handler returns immediately unless isActive and the session
handle are set; the send itself runs inside a sessionPromise
continuation that re-checks isActive (activeAtSend is the flag's value
at that later moment). -/
def onAudioProcess (s : LiveState) (samples : List ℚ) (activeAtSend : Bool) :
    Option PCMBlob :=
  if s.isActive && s.session then
    if activeAtSend then some (createBlob samples) else none
  else none

/-- GeminiLiveService.connect (geminiLive.ts lines 129-278) up to the
creation of the live-session promise. Returns the new state, the error
propagated to the caller (none on success), and whether microphone
acquisition (getUserMedia) was performed. A call finding isConnecting
or isActive set returns immediately without touching the state.
Otherwise isConnecting is set and, inside the try block, cleanup runs
(note that cleanup itself clears isConnecting), isActive is set, both
audio contexts are created, getUserMedia runs (micOk false models a
rejected permission prompt: the catch block runs cleanup and rethrows),
the session promise is created, and the finally block clears
isConnecting. -/
def connectModel (s : LiveState) (f : TeardownFaults) (micOk : Bool) :
    LiveState × Option String × Bool :=
  if s.isConnecting || s.isActive then (s, none, false)
  else
    match cleanup { s with isConnecting := true } f with
    | Except.error e => ({ s with isConnecting := false }, some e, false)
    | Except.ok s₁ =>
      let s₂ := { s₁ with isActive := true, inputCtx := true, outputCtx := true }
      if micOk then
        ({ s₂ with stream := true, sessionPromise := true, isConnecting := false },
          none, true)
      else
        match cleanup s₂ f with
        | Except.error e => ({ s₂ with isConnecting := false }, some e, true)
        | Except.ok s₃ => (s₃, some "getUserMedia rejected", true)

/-- Module-level state of geminiLive.ts (lines 305-306): the single
active service and the globalConnecting latch. -/
structure GlobalState where
  activeGlobalService : Option LiveState
  globalConnecting : Bool
deriving DecidableEq, Repr

/-- The module-level connect of geminiLive.ts (lines 308-343): the
globalConnecting latch makes an overlapping start request a no-op;
otherwise any prior service is disconnected and dropped before a new
service is constructed and connected, and the latch is cleared in a
finally block. Returns the final global state, the prior service's
state after its disconnect (none when there was no prior service), the
error propagated to the caller, and whether microphone acquisition was
performed. -/
def globalConnect (g : GlobalState) (f : TeardownFaults) (micOk : Bool) :
    GlobalState × Option LiveState × Option String × Bool :=
  if g.globalConnecting then (g, none, none, false)
  else
    let prior : Option LiveState :=
      match g.activeGlobalService with
      | some svc =>
        match cleanup svc f with
        | Except.ok p => some p
        | Except.error _ => some svc
      | none => none
    let r := connectModel initialLiveState f micOk
    ({ activeGlobalService := some r.1, globalConnecting := false }, prior, r.2.1, r.2.2)

/-- A streaming session stopped mid-utterance: every handle live and
the user-side accumulator holding unfinalized text. -/
def midUtteranceState : LiveState :=
  { initialLiveState with
    isActive := true
    session := true
    stream := true
    processor := true
    inputCtx := true
    outputCtx := true
    sessionPromise := true
    currentInputTranscription := "hello" }

end Live

namespace Drive

/-- Evaluation of callDriveApi from retryCount 0 when the first
invocation fails with 401 or 403: one forced refresh; on refresh
failure AUTH_DEAD after one invocation; on refresh success exactly one
re-invocation whose only non-AUTH_DEAD outcome is success. -/
theorem callDriveApi_auth_first {T : Type} (op : Nat → OpResult T) (r : Bool)
    (fuel : Nat) (s : Option Nat)
    (h0 : op 0 = OpResult.fail s) (hs : s = some 401 ∨ s = some 403) :
    callDriveApi op r (fuel + 1 + 1) 0 0 =
      (if r then
        ((match op 1 with
          | OpResult.ok t => DriveOutcome.ok t
          | OpResult.fail _ => DriveOutcome.err ApiError.authDead), 2, 1)
      else (DriveOutcome.err ApiError.authDead, 1, 1)) := by
  cases r with
  | false => simp [callDriveApi, h0, hs, MAX_RETRIES]
  | true =>
    rcases h1 : op 1 with t | s2
    · simp [callDriveApi, h0, h1, hs, MAX_RETRIES]
    · by_cases hs2 : s2 = some 401 ∨ s2 = some 403
      · simp [callDriveApi, h0, h1, hs, hs2, MAX_RETRIES]
      · by_cases h429 : s2 = some 429
        · simp [callDriveApi, h0, h1, hs, hs2, h429, MAX_RETRIES]
        · simp [callDriveApi, h0, h1, hs, hs2, h429, MAX_RETRIES]

/-- Evaluation of fetchWithAuth from retryCount 0 on a first 401
response: one forced refresh, and on its success exactly one retry
whose response is classified with the exhausted budget. -/
theorem fetchWithAuth_auth_first (respStatus : Nat → Nat) (r : Bool) (fuel : Nat)
    (h0 : respStatus 0 = 401) :
    fetchWithAuth respStatus r (fuel + 1 + 1) 0 0 =
      (if r then
        ((if respStatus 1 = 401 then DriveOutcome.err ApiError.authDead
          else if respStatus 1 = 403 ∨ respStatus 1 = 429 then
            DriveOutcome.err ApiError.rateLimited
          else DriveOutcome.ok (respStatus 1)), 2, 1)
      else (DriveOutcome.err ApiError.authDead, 1, 1)) := by
  cases r with
  | false => simp [fetchWithAuth, h0, MAX_RETRIES]
  | true =>
    by_cases h1 : respStatus 1 = 401
    · simp [fetchWithAuth, h0, h1, MAX_RETRIES]
    · by_cases h2 : respStatus 1 = 403 ∨ respStatus 1 = 429
      · simp [fetchWithAuth, h0, h1, h2, MAX_RETRIES]
      · simp [fetchWithAuth, h0, h1, h2, MAX_RETRIES]

/-- Evaluation of fetchWithAuth on a first 403 response: thrown as
RATE_LIMIT_EXCEEDED after a single fetch, with no forced refresh and no
retry. -/
theorem fetchWithAuth_forbidden_first (respStatus : Nat → Nat) (r : Bool)
    (fuel : Nat) (h0 : respStatus 0 = 403) :
    fetchWithAuth respStatus r (fuel + 1) 0 0 =
      (DriveOutcome.err ApiError.rateLimited, 1, 0) := by
  simp [fetchWithAuth, h0]

/-- C1 (amended): for a wrapped storage operation whose first
invocation fails with an authorization-class status, callDriveApi
(auth-class being 401 or 403) performs exactly one forced refresh
getAccessToken(true) and re-executes the operation exactly once, never
twice (the invocation counter of the result is pinned): if the refresh
fails it raises AUTH_DEAD after a single invocation, and if the
re-execution fails in any way it raises AUTH_DEAD. fetchWithAuth obeys
the same one-shot policy but classifies only status 401 as
authorization-class: a 403 response is raised as RATE_LIMIT_EXCEEDED
with no refresh and no re-execution. Starting retryCount is 0 in every
wrapped call (fuel 2 covers the whole recursion from retryCount 0). -/
theorem claim1_single_retry_circuit_breaker {T : Type}
    (op : Nat → OpResult T) (respStatus : Nat → Nat) (s : Option Nat)
    (h0 : op 0 = OpResult.fail s) (hs : s = some 401 ∨ s = some 403) :
    callDriveApi op false 2 0 0 = (DriveOutcome.err ApiError.authDead, 1, 1) ∧
    callDriveApi op true 2 0 0 =
      ((match op 1 with
        | OpResult.ok t => DriveOutcome.ok t
        | OpResult.fail _ => DriveOutcome.err ApiError.authDead), 2, 1) ∧
    (respStatus 0 = 401 →
      fetchWithAuth respStatus false 2 0 0 =
        (DriveOutcome.err ApiError.authDead, 1, 1) ∧
      fetchWithAuth respStatus true 2 0 0 =
        ((if respStatus 1 = 401 then DriveOutcome.err ApiError.authDead
          else if respStatus 1 = 403 ∨ respStatus 1 = 429 then
            DriveOutcome.err ApiError.rateLimited
          else DriveOutcome.ok (respStatus 1)), 2, 1)) ∧
    (respStatus 0 = 403 →
      fetchWithAuth respStatus true 2 0 0 =
        (DriveOutcome.err ApiError.rateLimited, 1, 0)) := by
  refine ⟨?_, ?_, fun h401 => ⟨?_, ?_⟩, fun h403 => ?_⟩
  · simpa using callDriveApi_auth_first op false 0 s h0 hs
  · simpa using callDriveApi_auth_first op true 0 s h0 hs
  · simpa using fetchWithAuth_auth_first respStatus false 0 h401
  · simpa using fetchWithAuth_auth_first respStatus true 0 h401
  · exact fetchWithAuth_forbidden_first respStatus true 1 h403

/-- C1 counterexample to the claim as stated: a wrapped fetch whose
every response is 403 - an authorization-class error by the claim's own
definition - is thrown as RATE_LIMIT_EXCEEDED after exactly one fetch
and zero forced refreshes; the guard neither calls
getAccessToken(forcePrompt=true) nor re-executes the operation, and it
does not raise AUTH_DEAD. -/
theorem claim1_counterexample :
    fetchWithAuth (fun _ => 403) true 2 0 0 =
      (DriveOutcome.err ApiError.rateLimited, 1, 0) ∧
    fetchWithAuth (fun _ => 403) true 2 0 0 ≠
      (DriveOutcome.err ApiError.authDead, 2, 1) := by
  exact ⟨rfl, by decide⟩

/-- C1 witness: the amended theorem applied to an operation that always
fails with 401 and a fetch that always answers 401. -/
theorem claim1_witness :
    callDriveApi (fun _ => (OpResult.fail (some 401) : OpResult Nat)) true 2 0 0 =
      (DriveOutcome.err ApiError.authDead, 2, 1) ∧
    fetchWithAuth (fun _ => 401) true 2 0 0 =
      (DriveOutcome.err ApiError.authDead, 2, 1) := by
  have h := claim1_single_retry_circuit_breaker
    (fun _ => (OpResult.fail (some 401) : OpResult Nat)) (fun _ => 401)
    (some 401) rfl (Or.inl rfl)
  refine ⟨h.2.1, ?_⟩
  have h2 := (h.2.2.1 rfl).2
  simpa using h2

/-- While a refresh is in flight, any further sequence of calls and
polls (no token-client callback among them) shows no new prompt and
leaves isRefreshingToken set. -/
theorem authRun_no_new_prompt (es : List AuthEvent) :
    ∀ s : AuthSys, s.isRefreshingToken = true →
      (∀ e ∈ es, isTokenCallback e = false) →
      (authRun s es).prompts = s.prompts ∧ (authRun s es).isRefreshingToken = true := by
  induction es with
  | nil => exact fun s h _ => ⟨rfl, h⟩
  | cons e es ih =>
    intro s hflag h
    have he := h e (List.mem_cons_self e es)
    have hstep : (authStep s e).prompts = s.prompts ∧
        (authStep s e).isRefreshingToken = true := by
      cases e with
      | call id fp => simp [authStep, hflag]
      | tokenCallback ok tok => simp [isTokenCallback] at he
      | poll id => simp [authStep, hflag]
    have hrest := ih (authStep s e) hstep.2 (fun e' he' => h e' (List.mem_cons_of_mem _ he'))
    exact ⟨hrest.1.trans hstep.1, hrest.2⟩

/-- C2 (amended): for every interleaved burst of
getAccessToken(forcePrompt=true) calls - a first call finding no
refresh in flight followed by any calls and polls before the token
callback fires - exactly one interactive prompt is shown, and a caller
observing isRefreshingToken waits for the in-flight refresh. A parked
caller that observes the flag cleared resolves with the token stored at
that moment: if the in-flight refresh succeeded that is its refreshed
token, but if it failed the prompting caller alone is rejected while
every waiting caller still resolves, with the stale stored token - the
waiters do not share a SessionExpired outcome. -/
theorem claim2_single_flight_refresh :
    (∀ (s : AuthSys) (id : Nat) (es : List AuthEvent),
      s.isRefreshingToken = false →
      (∀ e ∈ es, isTokenCallback e = false) →
      (authRun s (AuthEvent.call id true :: es)).prompts = s.prompts + 1) ∧
    (∀ (s : AuthSys) (id : Nat),
      s.isRefreshingToken = false → id ∈ s.waiting →
      (authStep s (AuthEvent.poll id)).outcomes
        = s.outcomes ++ [(id, TokenOutcome.resolved s.stored)]) ∧
    (∀ (s : AuthSys) (id tok : Nat),
      s.pendingPrompt = some id →
      (authStep s (AuthEvent.tokenCallback true tok)).stored = some tok ∧
      (authStep s (AuthEvent.tokenCallback true tok)).isRefreshingToken = false ∧
      (authStep s (AuthEvent.tokenCallback true tok)).outcomes
        = s.outcomes ++ [(id, TokenOutcome.resolved (some tok))]) ∧
    (∀ (s : AuthSys) (id tok : Nat),
      s.pendingPrompt = some id →
      (authStep s (AuthEvent.tokenCallback false tok)).stored = s.stored ∧
      (authStep s (AuthEvent.tokenCallback false tok)).isRefreshingToken = false ∧
      (authStep s (AuthEvent.tokenCallback false tok)).outcomes
        = s.outcomes ++ [(id, TokenOutcome.rejected)]) := by
  refine ⟨?_, ?_, ?_, ?_⟩
  · intro s id es hflag hnc
    have hstep : (authStep s (AuthEvent.call id true)).prompts = s.prompts + 1 ∧
        (authStep s (AuthEvent.call id true)).isRefreshingToken = true := by
      rcases hst : s.stored with _ | t <;> simp [authStep, hflag, hst]
    have hrun := authRun_no_new_prompt es (authStep s (AuthEvent.call id true)) hstep.2 hnc
    exact hrun.1.trans hstep.1
  · intro s id hflag hmem
    simp [authStep, hflag, hmem]
  · intro s id tok hpp
    simp [authStep, hpp]
  · intro s id tok hpp
    simp [authStep, hpp]

/-- C2 counterexample to the claim as stated: caller 0 starts the
forced refresh, caller 1 arrives while it is in flight and waits; the
refresh fails (the prompt is declined), so caller 0 is rejected - yet
caller 1, polling after the flag clears, resolves with the (absent)
stored token. The two interleaved callers do not resolve to the same
outcome, although only one prompt was shown. -/
theorem claim2_counterexample :
    (authRun authInit [AuthEvent.call 0 true, AuthEvent.call 1 true,
        AuthEvent.tokenCallback false 7, AuthEvent.poll 1]).prompts = 1 ∧
    (authRun authInit [AuthEvent.call 0 true, AuthEvent.call 1 true,
        AuthEvent.tokenCallback false 7, AuthEvent.poll 1]).outcomes
      = [(0, TokenOutcome.rejected), (1, TokenOutcome.resolved none)] := by
  decide

/-- C2 witness: two interleaved forced calls from the initial state
show exactly one prompt. -/
theorem claim2_witness :
    (authRun authInit [AuthEvent.call 5 true, AuthEvent.call 6 true]).prompts = 1 := by
  have h := claim2_single_flight_refresh
  exact h.1 authInit 5 [AuthEvent.call 6 true] rfl (by simp [isTokenCallback])

/-- With the flag never observed clear, the polling wait continues at
every fuel. -/
theorem waiterPolls_flag_never_clears (flagAt : Nat → Bool) (stored : Nat → Option Nat)
    (hf : ∀ j, flagAt j = true) :
    ∀ fuel k, waiterPolls flagAt stored fuel k = none := by
  intro fuel
  induction fuel with
  | zero => intro k; rfl
  | succ n ih => intro k; simp [waiterPolls, hf k, ih]

/-- C9 (amended): a caller that begins waiting because a refresh is
already in flight polls isRefreshingToken every 100 ms with no
deadline: while the flag never clears the caller is still waiting after
any number of polls - there is no bounded window and no SessionExpired
failure on this path - and as soon as a poll observes the flag cleared
the caller resolves with the token stored at that moment. -/
theorem claim9_unbounded_wait :
    (∀ (flagAt : Nat → Bool) (stored : Nat → Option Nat) (fuel k : Nat),
      (∀ j, flagAt j = true) → waiterPolls flagAt stored fuel k = none) ∧
    (∀ (flagAt : Nat → Bool) (stored : Nat → Option Nat) (fuel k : Nat),
      flagAt k = false → waiterPolls flagAt stored (fuel + 1) k = some (stored k)) := by
  constructor
  · intro flagAt stored fuel k hf
    exact waiterPolls_flag_never_clears flagAt stored hf fuel k
  · intro flagAt stored fuel k hk
    simp [waiterPolls, hk]

/-- C9 counterexample to the claim as stated: with the in-flight
refresh never answered, the waiting caller has still not failed after
1200 polls - two minutes of waiting, beyond any bounded window on the
order of tens of seconds - it is simply still waiting, and the wait
loop has no failure outcome at all. -/
theorem claim9_counterexample :
    waiterPolls (fun _ => true) (fun _ => none) 1200 0 = none := by
  exact waiterPolls_flag_never_clears (fun _ => true) (fun _ => none) (fun _ => rfl) 1200 0

/-- C9 witness: a caller whose first poll sees the flag cleared
resolves with the stored token. -/
theorem claim9_witness :
    waiterPolls (fun _ => false) (fun _ => some 3) 1 0 = some (some 3) := by
  exact claim9_unbounded_wait.2 (fun _ => false) (fun _ => some 3) 0 0 rfl

end Drive

namespace Live

/-- The try-catch wrapper swallows every outcome of the wrapped
release operation. -/
theorem tryIgnore_eq (op : Except String Unit) : tryIgnore op = Except.ok () := by
  cases op <;> rfl

/-- Closed form of cleanup: it always succeeds, with every handle
nulled, both flags cleared, the source set emptied, the cursor reset,
and the transcription accumulators untouched - for every starting state
and every combination of release-operation failures. -/
theorem cleanup_eq (s : LiveState) (f : TeardownFaults) :
    cleanup s f = Except.ok
      { session := false, stream := false, processor := false, inputCtx := false,
        outputCtx := false, sessionPromise := false, nextStartTime := 0, sources := [],
        currentInputTranscription := s.currentInputTranscription,
        currentOutputTranscription := s.currentOutputTranscription,
        isActive := false, isConnecting := false } := by
  obtain ⟨se, st, pr, ic, oc, sp, nst, src, cit, cot, ia, icn⟩ := s
  cases pr <;> cases se <;> cases st <;> cases ic <;> cases oc <;>
    rcases src with _ | ⟨a, src⟩ <;>
      simp [cleanup, tryIgnore_eq, stopAllAudio, Bind.bind, Except.bind,
        Pure.pure, Except.pure]

/-- C7: the teardown (cleanup, hence disconnect) never throws - for
every state and every combination of failing release operations it
resolves - and it is idempotent: a second invocation from the state the
first one left returns that state unchanged, with every handle nulled,
all sources stopped, the active flag false, and the transcription
accumulators (hence anything previously returned from them) unaffected. -/
theorem claim7_cleanup_idempotent_never_throws (s : LiveState) (f f' : TeardownFaults) :
    ∃ s₁, cleanup s f = Except.ok s₁ ∧ cleanup s₁ f' = Except.ok s₁ ∧
      s₁.isActive = false ∧ s₁.isConnecting = false ∧ s₁.sources = [] ∧
      s₁.processor = false ∧ s₁.session = false ∧ s₁.stream = false ∧
      s₁.inputCtx = false ∧ s₁.outputCtx = false ∧ s₁.sessionPromise = false ∧
      s₁.currentInputTranscription = s.currentInputTranscription ∧
      s₁.currentOutputTranscription = s.currentOutputTranscription := by
  refine ⟨_, cleanup_eq s f, ?_, rfl, rfl, rfl, rfl, rfl, rfl, rfl, rfl, rfl, rfl, rfl⟩
  exact cleanup_eq _ f'

/-- C5 at the failing input: disconnect invoked mid-utterance, with the
user-side accumulator holding the unfinalized text hello, resolves with
undefined - the component the awaiting caller receives in place of a
transcript list is none - flushing no final turn and leaving the
accumulated text behind in the torn-down state. The claimed flush and
transcript return do not exist on this path (the caller
VoiceOverlay.handleEndSession nevertheless reads a length property off
the awaited result). -/
theorem claim5_disconnect_returns_no_transcript :
    disconnect midUtteranceState noFaults =
      Except.ok ({ initialLiveState with currentInputTranscription := "hello" }, none) ∧
    (onTurnComplete midUtteranceState).2 =
      some ("hello".trim, "".trim) := by
  constructor
  · rfl
  · rfl

/-- Consecutive entries of the reference schedule satisfy the ordering
discipline: with non-negative durations the starts are non-decreasing,
and the next start equals the previous start plus its duration exactly
when the next frame's clock is at or behind that sum (the cursor). -/
theorem annotate_chain (L : List (ℚ × ℚ)) :
    ∀ cursor : ℚ, (∀ p ∈ L, 0 ≤ p.2) →
      List.Chain' (fun x y : ℚ × ℚ × ℚ =>
        x.1 ≤ y.1 ∧ (y.2.1 ≤ x.1 + x.2.2 → y.1 = x.1 + x.2.2)) (annotate cursor L) := by
  induction L with
  | nil => intro cursor _; simp [annotate]
  | cons p rest ih =>
    intro cursor hd
    rcases p with ⟨c, d⟩
    cases rest with
    | nil => simp [annotate]
    | cons q rest' =>
      rcases q with ⟨c2, d2⟩
      have hd1 : (0:ℚ) ≤ d := hd (c, d) (List.mem_cons_self _ _)
      have hch := ih (max cursor c + d) (fun p hp => hd p (List.mem_cons_of_mem _ hp))
      refine List.chain'_cons.mpr ⟨⟨?_, ?_⟩, hch⟩
      · exact le_trans (le_add_of_nonneg_right hd1) (le_max_left _ _)
      · exact fun h => max_eq_left h

/-- While the session is active with a live output context, a frame run
produces exactly the reference schedule's start times and preserves the
activity flags. -/
theorem scheduleRun_eq_annotate (frames : List (ℚ × ℚ × Nat)) :
    ∀ s : LiveState, s.isActive = true → s.outputCtx = true →
      (scheduleRun s frames).2 =
        (annotate s.nextStartTime (frames.map (fun t => (t.1, t.2.1)))).map
          (fun e => e.1) ∧
      (scheduleRun s frames).1.isActive = true ∧
      (scheduleRun s frames).1.outputCtx = true := by
  induction frames with
  | nil => intro s ha ho; exact ⟨rfl, ha, ho⟩
  | cons fr rest ih =>
    intro s ha ho
    rcases fr with ⟨c, d, id⟩
    have h' := ih { s with nextStartTime := max s.nextStartTime c + d,
                           sources := id :: s.sources,
                           isActive := true, outputCtx := true } rfl rfl
    simp only [scheduleRun, processAudioFrame, audioPhaseA, audioPhaseB, ha, ho,
      Bool.and_self, Bool.true_and, if_true, List.map_cons, annotate, List.map]
    exact ⟨by simp [h'.1], h'.2.1, h'.2.2⟩

/-- C3: while the session is active with a live output context, each
inbound frame is scheduled to start at max(nextStartTime, clock) and
the cursor then advances by exactly that frame's buffer duration;
consequently, over any frame sequence with non-negative durations and
no interleaved interruption, the scheduled start times are
non-decreasing, and consecutive starts satisfy start(n+1) =
start(n) + duration(n) exactly whenever the next frame's clock is at or
behind the cursor. -/
theorem claim3_gapless_scheduling (s : LiveState) (clock dur : ℚ) (id : Nat)
    (frames : List (ℚ × ℚ × Nat))
    (ha : s.isActive = true) (ho : s.outputCtx = true)
    (hd : ∀ f ∈ frames, 0 ≤ f.2.1) :
    (processAudioFrame s clock dur id).2 = some (max s.nextStartTime clock) ∧
    (processAudioFrame s clock dur id).1.nextStartTime
      = max s.nextStartTime clock + dur ∧
    (scheduleRun s frames).2 =
      (annotate s.nextStartTime (frames.map (fun t => (t.1, t.2.1)))).map
        (fun e => e.1) ∧
    List.Chain' (fun x y : ℚ × ℚ × ℚ =>
        x.1 ≤ y.1 ∧ (y.2.1 ≤ x.1 + x.2.2 → y.1 = x.1 + x.2.2))
      (annotate s.nextStartTime (frames.map (fun t => (t.1, t.2.1)))) := by
  refine ⟨?_, ?_, (scheduleRun_eq_annotate frames s ha ho).1, ?_⟩
  · simp [processAudioFrame, audioPhaseA, audioPhaseB, ha, ho]
  · simp [processAudioFrame, audioPhaseA, audioPhaseB, ha, ho]
  · apply annotate_chain
    intro p hp
    rcases List.mem_map.mp hp with ⟨t, ht, rfl⟩
    exact hd t ht

/-- C3 witness: the three-frame jitter example - one-second buffers
arriving at output-clock times 0, 1/20 and 2 - schedules gaplessly at
0, 1 and 2. -/
theorem claim3_witness :
    (scheduleRun midUtteranceState
        [((0:ℚ), (1:ℚ), 10), (1/20, 1, 11), (2, 1, 12)]).2 = [(0:ℚ), 1, 2] := by
  have h := claim3_gapless_scheduling midUtteranceState 0 0 0
    [((0:ℚ), (1:ℚ), 10), (1/20, 1, 11), (2, 1, 12)] rfl rfl (by decide)
  rw [h.2.2.1]
  norm_num [annotate, midUtteranceState, initialLiveState]

/-- C4: processing an interruption while the session is active empties
the set of scheduled-but-unfinished sources, leaves every handle and
both flags untouched (no teardown, no error), and resets the cursor to
0, so the next inbound frame - at any non-negative output-clock time -
is scheduled exactly at the current output clock time rather than at a
stale future offset. -/
theorem claim4_interrupt_resets_playback (s : LiveState) (clock dur : ℚ) (id : Nat)
    (ha : s.isActive = true) (ho : s.outputCtx = true) (hc : 0 ≤ clock) :
    (onInterrupted s).sources = [] ∧
    (onInterrupted s).nextStartTime = 0 ∧
    (onInterrupted s).isActive = true ∧
    (onInterrupted s).isConnecting = s.isConnecting ∧
    (onInterrupted s).session = s.session ∧
    (onInterrupted s).stream = s.stream ∧
    (onInterrupted s).processor = s.processor ∧
    (onInterrupted s).inputCtx = s.inputCtx ∧
    (onInterrupted s).outputCtx = true ∧
    (processAudioFrame (onInterrupted s) clock dur id).2 = some clock := by
  have hoi : onInterrupted s = { s with sources := [], nextStartTime := 0 } := by
    simp [onInterrupted, stopAllAudio, ha]
  rw [hoi]
  refine ⟨rfl, rfl, ha, rfl, rfl, rfl, rfl, rfl, ho, ?_⟩
  simp [processAudioFrame, audioPhaseA, audioPhaseB, ha, ho, max_eq_right hc]

/-- C4 witness: interrupting the mid-utterance session and scheduling
the next frame at clock time 5. -/
theorem claim4_witness :
    (onInterrupted midUtteranceState).sources = [] ∧
    (processAudioFrame (onInterrupted midUtteranceState) 5 1 0).2 = some 5 := by
  have h := claim4_interrupt_resets_playback midUtteranceState 5 1 0 rfl rfl (by norm_num)
  exact ⟨h.1, h.2.2.2.2.2.2.2.2.2⟩

/-- C6: at most one live session. A connect call finding isConnecting
or isActive set is a no-op: the state is untouched and no microphone
acquisition happens. A module-level start finding the globalConnecting
latch set is likewise a no-op. A module-level start arriving while a
prior session exists (in particular one that is streaming) first fully
disconnects that prior session - its final state has every hardware
handle released and the active flag false - before acquiring new
resources, and afterwards exactly one service is registered, active
with fresh handles and the latch cleared. -/
theorem claim6_single_session (s : LiveState) (g : GlobalState) (p : LiveState)
    (f : TeardownFaults) (micOk : Bool) :
    (s.isConnecting = true ∨ s.isActive = true →
      connectModel s f micOk = (s, none, false)) ∧
    (g.globalConnecting = true → globalConnect g f micOk = (g, none, none, false)) ∧
    (g.globalConnecting = false → g.activeGlobalService = some p →
      globalConnect g f true =
        ({ activeGlobalService := some
              { session := false, stream := true, processor := false, inputCtx := true,
                outputCtx := true, sessionPromise := true, nextStartTime := 0,
                sources := [], currentInputTranscription := "",
                currentOutputTranscription := "", isActive := true,
                isConnecting := false },
            globalConnecting := false },
          some
            { session := false, stream := false, processor := false, inputCtx := false,
              outputCtx := false, sessionPromise := false, nextStartTime := 0,
              sources := [], currentInputTranscription := p.currentInputTranscription,
              currentOutputTranscription := p.currentOutputTranscription,
              isActive := false, isConnecting := false },
          none, true)) := by
  refine ⟨?_, ?_, ?_⟩
  · intro h
    rcases h with h | h <;> simp [connectModel, h]
  · intro h
    simp [globalConnect, h]
  · intro hg hs
    have hcm : connectModel initialLiveState f true =
        ({ session := false, stream := true, processor := false, inputCtx := true,
           outputCtx := true, sessionPromise := true, nextStartTime := 0,
           sources := [], currentInputTranscription := "",
           currentOutputTranscription := "", isActive := true,
           isConnecting := false }, none, true) := by
      simp [connectModel, initialLiveState, cleanup_eq]
    simp [globalConnect, hg, hs, cleanup_eq, hcm]

/-- C6 witness: a connect call on the already-active mid-utterance
session is a no-op, and a module-level start over that prior session
leaves exactly one active service with the prior handles released. -/
theorem claim6_witness :
    connectModel midUtteranceState noFaults true = (midUtteranceState, none, false) ∧
    (globalConnect
        { activeGlobalService := some midUtteranceState
          globalConnecting := false } noFaults true).1.activeGlobalService
      = some
          { session := false, stream := true, processor := false, inputCtx := true,
            outputCtx := true, sessionPromise := true, nextStartTime := 0,
            sources := [], currentInputTranscription := "",
            currentOutputTranscription := "", isActive := true,
            isConnecting := false } := by
  have h := claim6_single_session midUtteranceState
    { activeGlobalService := some midUtteranceState, globalConnecting := false }
    midUtteranceState noFaults true
  refine ⟨h.1 (Or.inr rfl), ?_⟩
  rw [h.2.2 rfl rfl]

/-- C8: the session invariant across every handler step: whenever
isActive is false, the capture handler sends nothing, the audio branch
neither moves the cursor before the decode nor schedules a source after
the decode completes (for either decode outcome), the interrupted
branch does nothing, the turn-boundary branch emits nothing - and even
with isActive set at handler entry, a send continuation that observes
the flag false sends nothing. No handler path resumes using a capture,
channel, or playback handle once isActive is false. -/
theorem claim8_inactive_handlers_inert (s : LiveState) (samples : List ℚ) (b : Bool)
    (clock dur : ℚ) (id : Nat) (decodeOk : Bool)
    (hia : s.isActive = false) :
    onAudioProcess s samples b = none ∧
    audioPhaseA s clock = s ∧
    audioPhaseB s dur id decodeOk = (s, none) ∧
    onInterrupted s = s ∧
    (onTurnComplete s) = (s, none) ∧
    (∀ s' : LiveState, onAudioProcess s' samples false = none) := by
  refine ⟨?_, ?_, ?_, ?_, ?_, ?_⟩
  · simp [onAudioProcess, hia]
  · simp [audioPhaseA, hia]
  · simp [audioPhaseB, hia]
  · simp [onInterrupted, hia]
  · simp [onTurnComplete, hia]
  · intro s'
    simp [onAudioProcess]

/-- C8 witness: the handlers evaluated on the inactive initial state. -/
theorem claim8_witness :
    onAudioProcess initialLiveState [1, 0] true = none ∧
    audioPhaseB initialLiveState 1 0 true = (initialLiveState, none) := by
  have h := claim8_inactive_handlers_inert initialLiveState [1, 0] true 0 1 0 true rfl
  exact ⟨h.1, h.2.2.1⟩

end Live

/-- The Int16 store is congruent to the truncated input modulo 2 to the
16 and lands in the signed 16-bit range. -/
theorem toInt16_spec (y : ℚ) :
    Int.ModEq 65536 (toInt16 y) (ratTrunc y) ∧
    -32768 ≤ toInt16 y ∧ toInt16 y < 32768 := by
  have h1 : (0:ℤ) ≤ ratTrunc y % 65536 := Int.emod_nonneg _ (by norm_num)
  have h2 : ratTrunc y % 65536 < 65536 := Int.emod_lt_of_pos _ (by norm_num)
  by_cases h : ratTrunc y % 65536 < 32768
  · simp only [toInt16, Int.ModEq, if_pos h]
    refine ⟨by omega, by omega, by omega⟩
  · simp only [toInt16, Int.ModEq, if_neg h]
    refine ⟨by omega, by omega, by omega⟩

/-- Truncation is the identity on integral rationals. -/
theorem ratTrunc_intCast (n : ℤ) : ratTrunc (n : ℚ) = n := by
  simp [ratTrunc, Int.tdiv_one]

/-- The Int16 store of an integral rational, in closed form. -/
theorem toInt16_intCast (n : ℤ) :
    toInt16 (n : ℚ) =
      if n % 65536 < 32768 then n % 65536 else n % 65536 - 65536 := by
  simp [toInt16, ratTrunc_intCast]

/-- C10: the outbound encoder createBlob stores trunc(x * 32768) as a
raw Int16 with no clamping - the stored value is congruent to
trunc(x * 32768) modulo 2 to the 16 and lies in -32768..32767 - so a
full-scale sample 1.0 wraps to -32768 and an out-of-range sample such
as 3/2 wraps (to -16384) instead of clipping; unlike the clamped
converter convertFloat32ToInt16 of the shared buffer utilities, which
maps x to trunc(max(-1, min(1, x)) * 32767) and sends every sample at
or beyond full scale to 32767 (or -32767). -/
theorem claim10_createBlob_wraps_convert_clamps (x : ℚ) :
    Int.ModEq 65536 (Live.createBlobSample x) (ratTrunc (x * 32768)) ∧
    -32768 ≤ Live.createBlobSample x ∧ Live.createBlobSample x < 32768 ∧
    Live.createBlobSample 1 = -32768 ∧
    Live.createBlobSample (3/2) = -16384 ∧
    Drive.convertFloat32ToInt16Sample x = toInt16 (max (-1) (min 1 x) * 32767) ∧
    (1 ≤ x → Drive.convertFloat32ToInt16Sample x = 32767) ∧
    (x ≤ -1 → Drive.convertFloat32ToInt16Sample x = -32767) ∧
    Drive.convertFloat32ToInt16Sample (3/2) = 32767 := by
  obtain ⟨hm, hlo, hhi⟩ := toInt16_spec (x * 32768)
  have hone : Live.createBlobSample 1 = -32768 := by
    show toInt16 ((1:ℚ) * 32768) = -32768
    rw [(by norm_num : ((1:ℚ) * 32768) = ((32768:ℤ) : ℚ)), toInt16_intCast]
    decide
  have hwrap : Live.createBlobSample (3/2) = -16384 := by
    show toInt16 ((3/2:ℚ) * 32768) = -16384
    rw [(by norm_num : ((3/2:ℚ) * 32768) = ((49152:ℤ) : ℚ)), toInt16_intCast]
    decide
  have hclip : Drive.convertFloat32ToInt16Sample (3/2) = 32767 := by
    show toInt16 (max (-1) (min 1 (3/2:ℚ)) * 32767) = 32767
    rw [(by norm_num : (max (-1) (min 1 (3/2:ℚ)) * 32767) = ((32767:ℤ) : ℚ)),
      toInt16_intCast]
    decide
  refine ⟨hm, hlo, hhi, hone, hwrap, rfl, ?_, ?_, hclip⟩
  · intro hx
    show toInt16 (max (-1) (min 1 x) * 32767) = 32767
    rw [min_eq_left hx, max_eq_right (by norm_num : (-1:ℚ) ≤ 1),
      (by norm_num : ((1:ℚ) * 32767) = ((32767:ℤ) : ℚ)), toInt16_intCast]
    decide
  · intro hx
    show toInt16 (max (-1) (min 1 x) * 32767) = -32767
    rw [min_eq_right (le_trans hx (by norm_num)), max_eq_left hx,
      (by norm_num : ((-1:ℚ) * 32767) = ((-32767:ℤ) : ℚ)), toInt16_intCast]
    decide

/-- C10 witness: the wrap of a full-scale sample in createBlob against
the clamp of the same sample in convertFloat32ToInt16. -/
theorem claim10_witness :
    Live.createBlobSample 1 = -32768 ∧
    Drive.convertFloat32ToInt16Sample 1 = 32767 ∧
    Drive.convertFloat32ToInt16Sample (-2) = -32767 := by
  have h := claim10_createBlob_wraps_convert_clamps 1
  have h2 := claim10_createBlob_wraps_convert_clamps (-2)
  exact ⟨h.2.2.2.1, h.2.2.2.2.2.2.1 le_rfl,
    h2.2.2.2.2.2.2.2.1 (by norm_num)⟩

end PsySom
